import Mathlib

/-!
# Verification of the CxxLazy lazy-initialization primitives

Shallow embedding of the CxxLazy library (`once_call.h`, `lazy.h`, `macros.h`):
a run-once action `OnceCall`, a write-once value cell `OnceCell<T>`, and the
adapters `Lazy<T>` / `Lazy<void>` binding a fixed initializer.

Modelling conventions:
* The tri-state flag `State { Uninitialized, Initializing, Initialized }` is an
  inductive type; each primitive is a structure over it (plus an optional slot
  for `OnceCell`).
* Caller-supplied initializers are side-effecting and may throw; they are
  embedded as `σ → Except ε σ` (actions) / `σ → Except ε (σ × α)` (value
  producers), where `σ` is the ambient external state the initializer may
  mutate (e.g. a counter it increments) and `Except.error` models a thrown
  exception.
* Operations return the updated primitive, the updated external state, and the
  propagated exception (if any).  C++ references/pointers into the cell are
  modelled as `Option α`: `some v` is a valid pointer to the stored value,
  `none` is `nullptr` (for `get`/`try_get`) or the undefined-behaviour
  dereference of an empty `std::optional` (for `operator*` / `operator->`).
* The sequential semantics is modelled; the double-checked-locking re-check
  under the lock is kept in the definitions (it re-reads the same flag).
-/

set_option autoImplicit false

namespace CxxLazy

/-- The tri-state initialization flag shared by every primitive
(`enum class State { Uninitialized, Initializing, Initialized }`). -/
inductive State where
  | Uninitialized : State
  | Initializing : State
  | Initialized : State
deriving DecidableEq, Repr

/-! ## OnceCall — the run-once action (`once_call.h`) -/

/-- `class OnceCall`: a thread-safe run-once action.  Its only data is the
atomic tri-state flag `state_` (the mutex has no sequential content). -/
structure OnceCall where
  state_ : State
deriving DecidableEq, Repr

/-- `OnceCall::OnceCall()` — constructs with `state_ = State::Uninitialized`. -/
def OnceCall.new : OnceCall := ⟨State.Uninitialized⟩

/-- `OnceCall::is_initialized()` — acquire-load of the flag, compared with
`State::Initialized`. -/
def OnceCall.is_initialized (c : OnceCall) : Bool :=
  c.state_ = State.Initialized

/-- `OnceCall::reset()` — under the lock, store `State::Uninitialized`. -/
def OnceCall.reset (_c : OnceCall) : OnceCall := ⟨State.Uninitialized⟩

/-- `OnceCall::call(Fn&& fn)` — double-checked locking: fast-path acquire
check, lock, re-check, then set `Initializing`, run `fn`, and on success store
`Initialized`; on a throw store `Uninitialized` and rethrow.  The result is
the updated action, the updated external state, and `some e` when `fn` threw
`e` (the exception propagates to the caller). -/
def OnceCall.call {σ ε : Type} (c : OnceCall) (fn : σ → Except ε σ) (s : σ) :
    OnceCall × σ × Option ε :=
  if c.state_ = State.Initialized then (c, s, none)
  else if c.state_ = State.Initialized then (c, s, none)
  else
    match fn s with
    | Except.ok s1 => (⟨State.Initialized⟩, s1, none)
    | Except.error e => (⟨State.Uninitialized⟩, s, some e)

/-- Run a sequence of `call`s on one `OnceCall`, threading the external state
and discarding the propagated exceptions (each caller catches its own). -/
def OnceCall.runCalls {σ ε : Type} (c : OnceCall) (fns : List (σ → Except ε σ))
    (s : σ) : OnceCall × σ :=
  match fns with
  | [] => (c, s)
  | fn :: rest =>
    match c.call fn s with
    | (c1, s1, _) => OnceCall.runCalls c1 rest s1

/-- Instrumentation: wrap an initializer so that the external state carries a
counter of its successful completions. -/
def countSucc {σ ε : Type} (fn : σ → Except ε σ) : σ × Nat → Except ε (σ × Nat) :=
  fun p =>
    match fn p.1 with
    | Except.ok s1 => Except.ok (s1, p.2 + 1)
    | Except.error e => Except.error e

/-! ## OnceCell — the write-once value cell (`once_call.h`) -/

/-- `class OnceCell<T>`: `std::optional<T> value_` plus the atomic tri-state
flag `state_` (the mutex has no sequential content). -/
structure OnceCell (α : Type) where
  value_ : Option α
  state_ : State
deriving DecidableEq, Repr

/-- `OnceCell<T>::OnceCell()` — empty slot, `state_ = State::Uninitialized`. -/
def OnceCell.new (α : Type) : OnceCell α := ⟨none, State.Uninitialized⟩

/-- `OnceCell<T>::is_initialized()` — acquire-load compared with
`State::Initialized`. -/
def OnceCell.is_initialized {α : Type} (c : OnceCell α) : Bool :=
  c.state_ = State.Initialized

/-- `OnceCell<T>::get_or_init(Fn&& fn)` — double-checked locking as in
`OnceCall::call`; the slow path additionally does `value_.emplace(fn())`
before storing `Initialized`, and on a throw stores `Uninitialized` (the slot
is untouched by the catch block: `emplace` never completed) and rethrows.
Returns the updated cell, the updated external state, and either the returned
reference (`Except.ok`) or the propagated exception (`Except.error`).  The
returned reference `*value_` is `c.value_ : Option α` (`none` models the
undefined dereference of an empty slot). -/
def OnceCell.get_or_init {α σ ε : Type} (c : OnceCell α)
    (fn : σ → Except ε (σ × α)) (s : σ) :
    OnceCell α × σ × Except ε (Option α) :=
  if c.state_ = State.Initialized then (c, s, Except.ok c.value_)
  else if c.state_ = State.Initialized then (c, s, Except.ok c.value_)
  else
    match fn s with
    | Except.ok (s1, v) => (⟨some v, State.Initialized⟩, s1, Except.ok (some v))
    | Except.error e => (⟨c.value_, State.Uninitialized⟩, s, Except.error e)

/-- `OnceCell<T>::get()` — if the flag is `Initialized` return `&(*value_)`,
else `nullptr`.  Never invokes an initializer, never writes the flag. -/
def OnceCell.get {α : Type} (c : OnceCell α) : Option α :=
  if c.state_ = State.Initialized then c.value_ else none

/-- `OnceCell<T>::try_get()` — same body as `get()`, `const`-qualified. -/
def OnceCell.try_get {α : Type} (c : OnceCell α) : Option α :=
  if c.state_ = State.Initialized then c.value_ else none

/-- `OnceCell<T>::reset()` — under the lock: `value_.reset()` then store
`State::Uninitialized`. -/
def OnceCell.reset {α : Type} (_c : OnceCell α) : OnceCell α :=
  ⟨none, State.Uninitialized⟩

/-- `OnceCell<T>::operator*()` — `return *value_;` with no state check; a
`none` result models the undefined dereference of an empty optional. -/
def OnceCell.derefStar {α : Type} (c : OnceCell α) : Option α := c.value_

/-- `OnceCell<T>::operator*() const` — `return *value_;`. -/
def OnceCell.derefStarConst {α : Type} (c : OnceCell α) : Option α := c.value_

/-- `OnceCell<T>::operator->()` — `return &(*value_);` with no state check. -/
def OnceCell.derefArrow {α : Type} (c : OnceCell α) : Option α := c.value_

/-- `OnceCell<T>::operator->() const` — `return &(*value_);`. -/
def OnceCell.derefArrowConst {α : Type} (c : OnceCell α) : Option α := c.value_

/-- The public operations of `OnceCell<T>` as reified events, used to state
whole-history invariants.  `getOrInit` carries its caller-supplied
initializer; the read-only operations carry no data. -/
inductive CellOp (σ ε α : Type) where
  | getOrInit (fn : σ → Except ε (σ × α)) : CellOp σ ε α
  | getOp : CellOp σ ε α
  | tryGetOp : CellOp σ ε α
  | isInitOp : CellOp σ ε α
  | resetOp : CellOp σ ε α

/-- One operation applied to a cell: `get_or_init` may mutate the cell and the
external state; `get` / `try_get` / `is_initialized` read only; `reset`
clears. -/
def OnceCell.step {α σ ε : Type} (c : OnceCell α) (op : CellOp σ ε α) (s : σ) :
    OnceCell α × σ :=
  match op with
  | CellOp.getOrInit fn => ((c.get_or_init fn s).1, (c.get_or_init fn s).2.1)
  | CellOp.getOp => (c, s)
  | CellOp.tryGetOp => (c, s)
  | CellOp.isInitOp => (c, s)
  | CellOp.resetOp => (c.reset, s)

/-- Run a sequence of operations on one cell, threading the external state. -/
def OnceCell.runOps {α σ ε : Type} (c : OnceCell α) (ops : List (CellOp σ ε α))
    (s : σ) : OnceCell α × σ :=
  match ops with
  | [] => (c, s)
  | op :: rest =>
    match c.step op s with
    | (c1, s1) => OnceCell.runOps c1 rest s1

/-- The slot/flag invariant of `OnceCell<T>`: the `std::optional` slot is
non-empty exactly when the flag is `Initialized`. -/
def slotInv {α : Type} (c : OnceCell α) : Prop :=
  c.value_.isSome = true ↔ c.state_ = State.Initialized

instance {α : Type} (c : OnceCell α) : Decidable (slotInv c) := by
  unfold slotInv; infer_instance

/-! ## Lazy value adapter `Lazy<T>` (`lazy.h`) -/

/-- `class Lazy<T>`: an `OnceCell<T> cell_` together with the bound
initializer `InitFn init_fn_` captured at construction. -/
structure Lazy (σ ε α : Type) where
  cell_ : OnceCell α
  init_fn_ : σ → Except ε (σ × α)

/-- `Lazy<T>::Lazy(InitFn init_fn)` — stores the initializer; the member
`cell_` is default-constructed (empty, `Uninitialized`); the initializer is
not invoked. -/
def Lazy.new {σ ε α : Type} (fn : σ → Except ε (σ × α)) : Lazy σ ε α :=
  ⟨OnceCell.new α, fn⟩

/-- `Lazy<T>::get()` — `return cell_.get_or_init(init_fn_);`. -/
def Lazy.get {σ ε α : Type} (l : Lazy σ ε α) (s : σ) :
    Lazy σ ε α × σ × Except ε (Option α) :=
  match l.cell_.get_or_init l.init_fn_ s with
  | (c1, s1, r) => ({ l with cell_ := c1 }, s1, r)

/-- `Lazy<T>::operator*()` — `return get();`. -/
def Lazy.derefStar {σ ε α : Type} (l : Lazy σ ε α) (s : σ) :
    Lazy σ ε α × σ × Except ε (Option α) :=
  l.get s

/-- `Lazy<T>::operator->()` — `return &get();`. -/
def Lazy.derefArrow {σ ε α : Type} (l : Lazy σ ε α) (s : σ) :
    Lazy σ ε α × σ × Except ε (Option α) :=
  l.get s

/-- `Lazy<T>::is_initialized()` — `return cell_.is_initialized();`. -/
def Lazy.is_initialized {σ ε α : Type} (l : Lazy σ ε α) : Bool :=
  l.cell_.is_initialized

/-- `Lazy<T>::try_get() const` — `return cell_.get();` (delegates to the
cell's lock-free `get`, which has the same semantics as the cell's
`try_get`). -/
def Lazy.try_get {σ ε α : Type} (l : Lazy σ ε α) : Option α :=
  l.cell_.get

/-- `Lazy<T>::reset()` — `cell_.reset();`. -/
def Lazy.reset {σ ε α : Type} (l : Lazy σ ε α) : Lazy σ ε α :=
  { l with cell_ := l.cell_.reset }

/-- `Lazy<T>::operator bool() const` — `return is_initialized();`. -/
def Lazy.toBool {σ ε α : Type} (l : Lazy σ ε α) : Bool :=
  l.is_initialized

/-! ## Lazy action adapter `Lazy<void>` (`lazy.h`) -/

/-- `class Lazy<void>`: an `OnceCall once_` together with the bound action
`InitFn init_fn_` captured at construction. -/
structure LazyVoid (σ ε : Type) where
  once_ : OnceCall
  init_fn_ : σ → Except ε σ

/-- `Lazy<void>::Lazy(InitFn init_fn)` — stores the action; `once_` is
default-constructed `Uninitialized`; the action is not invoked. -/
def LazyVoid.new {σ ε : Type} (fn : σ → Except ε σ) : LazyVoid σ ε :=
  ⟨OnceCall.new, fn⟩

/-- `Lazy<void>::get()` — `once_.call(init_fn_);`. -/
def LazyVoid.get {σ ε : Type} (l : LazyVoid σ ε) (s : σ) :
    LazyVoid σ ε × σ × Option ε :=
  match l.once_.call l.init_fn_ s with
  | (o1, s1, r) => ({ l with once_ := o1 }, s1, r)

/-- `Lazy<void>::is_initialized()` — `return once_.is_initialized();`. -/
def LazyVoid.is_initialized {σ ε : Type} (l : LazyVoid σ ε) : Bool :=
  l.once_.is_initialized

/-- `Lazy<void>::operator bool() const` — `return is_initialized();`. -/
def LazyVoid.toBool {σ ε : Type} (l : LazyVoid σ ε) : Bool :=
  l.is_initialized

/-- `Lazy<void>::reset()` — `once_.reset();`. -/
def LazyVoid.reset {σ ε : Type} (l : LazyVoid σ ε) : LazyVoid σ ε :=
  { l with once_ := l.once_.reset }

/-! ## Compile-time copy/move availability (C++ special member functions)

`lazy.h` deletes the copy operations of `Lazy<T>` and defaults its move
operations; `Lazy<void>` deletes all four.  Whether the adapters are actually
copy/move-constructible/assignable is decided by the C++ special-member
rules, which we embed here: a class declaration form per member function,
member-type traits for the leaf standard-library members, and the standard's
availability computation (a defaulted move operation that would be ill-formed
is defined as deleted, and a defaulted move operation defined as deleted is
ignored by overload resolution, falling back to the copy operation). -/

/-- `std::is_copy/move_constructible/assignable` availabilities of a type. -/
structure TypeTraits where
  copyCtor : Bool
  moveCtor : Bool
  copyAssign : Bool
  moveAssign : Bool
deriving DecidableEq, Repr

/-- How a class declares one special member function: implicitly or
explicitly `= default`, explicitly `= delete`, or not declared at all (e.g.
move operations suppressed by a user-declared destructor). -/
inductive MemberDecl where
  | defaulted : MemberDecl
  | explicitlyDeleted : MemberDecl
  | suppressed : MemberDecl
deriving DecidableEq, Repr

/-- Initializing a member from an rvalue of its type succeeds if the member
has a usable move constructor or (binding the rvalue to `const&`) a usable
copy constructor. -/
def memberMoveInit (m : TypeTraits) : Bool := m.moveCtor || m.copyCtor

/-- Assigning to a member from an rvalue succeeds if the member has a usable
move assignment or a usable copy assignment. -/
def memberMoveAssign (m : TypeTraits) : Bool := m.moveAssign || m.copyAssign

/-- Availability of the copy constructor: deleted declarations are unusable;
a defaulted (or implicit) one is defined as deleted — hence unusable — unless
every member is copy-constructible. -/
def copyCtorAvail (d : MemberDecl) (ms : List TypeTraits) : Bool :=
  match d with
  | MemberDecl.explicitlyDeleted => false
  | MemberDecl.suppressed => false
  | MemberDecl.defaulted => ms.all (fun m => m.copyCtor)

/-- Availability of the copy assignment, analogously. -/
def copyAssignAvail (d : MemberDecl) (ms : List TypeTraits) : Bool :=
  match d with
  | MemberDecl.explicitlyDeleted => false
  | MemberDecl.suppressed => false
  | MemberDecl.defaulted => ms.all (fun m => m.copyAssign)

/-- Whether construction from an rvalue succeeds (`std::is_move_constructible`):
an explicitly deleted move constructor participates in overload resolution and
makes it fail; a defaulted move constructor is usable if every member can be
move-initialized, and otherwise is defined as deleted and *ignored by overload
resolution*, so the rvalue falls back to the copy constructor; with no move
constructor declared the rvalue likewise binds to the copy constructor. -/
def moveCtorAvail (d : MemberDecl) (ms : List TypeTraits) (classCopy : Bool) :
    Bool :=
  match d with
  | MemberDecl.explicitlyDeleted => false
  | MemberDecl.suppressed => classCopy
  | MemberDecl.defaulted =>
    if ms.all memberMoveInit then true else classCopy

/-- Whether assignment from an rvalue succeeds (`std::is_move_assignable`),
analogously to `moveCtorAvail`. -/
def moveAssignAvail (d : MemberDecl) (ms : List TypeTraits) (classCopy : Bool) :
    Bool :=
  match d with
  | MemberDecl.explicitlyDeleted => false
  | MemberDecl.suppressed => classCopy
  | MemberDecl.defaulted =>
    if ms.all memberMoveAssign then true else classCopy

/-- `std::mutex` is neither copyable nor movable. -/
def std_mutex_traits : TypeTraits := ⟨false, false, false, false⟩

/-- `std::atomic<T>`: copy constructor and copy assignment are deleted, no
move operations. -/
def std_atomic_traits : TypeTraits := ⟨false, false, false, false⟩

/-- `int` (the test instantiation `T = int`) has all four operations. -/
def int_traits : TypeTraits := ⟨true, true, true, true⟩

/-- `std::optional<T>` has exactly the availabilities of `T`. -/
def std_optional_traits (t : TypeTraits) : TypeTraits := t

/-- `std::function<R()>` is copyable and movable. -/
def std_function_traits : TypeTraits := ⟨true, true, true, true⟩

/-- Members of `OnceCall`: `std::atomic<State> state_; std::mutex mtx_;`. -/
def OnceCall_members : List TypeTraits := [std_atomic_traits, std_mutex_traits]

/-- Special-member availability of `OnceCall`: copies are implicitly declared
(defaulted) but deleted through the members; the user-declared destructor
`~OnceCall();` suppresses the move operations. -/
def OnceCall_traits : TypeTraits :=
  ⟨copyCtorAvail MemberDecl.defaulted OnceCall_members,
   moveCtorAvail MemberDecl.suppressed OnceCall_members
     (copyCtorAvail MemberDecl.defaulted OnceCall_members),
   copyAssignAvail MemberDecl.defaulted OnceCall_members,
   moveAssignAvail MemberDecl.suppressed OnceCall_members
     (copyAssignAvail MemberDecl.defaulted OnceCall_members)⟩

/-- Members of `OnceCell<int>`:
`std::optional<int> value_; std::atomic<State> state_; std::mutex mtx_;`. -/
def OnceCell_int_members : List TypeTraits :=
  [std_optional_traits int_traits, std_atomic_traits, std_mutex_traits]

/-- Special-member availability of `OnceCell<int>`: copies implicitly
declared but deleted through `std::atomic`/`std::mutex`; the user-declared
destructor `~OnceCell();` suppresses the move operations. -/
def OnceCell_int_traits : TypeTraits :=
  ⟨copyCtorAvail MemberDecl.defaulted OnceCell_int_members,
   moveCtorAvail MemberDecl.suppressed OnceCell_int_members
     (copyCtorAvail MemberDecl.defaulted OnceCell_int_members),
   copyAssignAvail MemberDecl.defaulted OnceCell_int_members,
   moveAssignAvail MemberDecl.suppressed OnceCell_int_members
     (copyAssignAvail MemberDecl.defaulted OnceCell_int_members)⟩

/-- Members of `Lazy<int>`: `OnceCell<int> cell_; InitFn init_fn_;`. -/
def Lazy_int_members : List TypeTraits :=
  [OnceCell_int_traits, std_function_traits]

/-- Special-member availability of `Lazy<int>` as declared in `lazy.h`
(lines 27–33): `Lazy(const Lazy&) = delete; Lazy& operator=(const Lazy&) =
delete; Lazy(Lazy&&) noexcept = default; Lazy& operator=(Lazy&&) noexcept =
default;`. -/
def Lazy_int_traits : TypeTraits :=
  ⟨copyCtorAvail MemberDecl.explicitlyDeleted Lazy_int_members,
   moveCtorAvail MemberDecl.defaulted Lazy_int_members
     (copyCtorAvail MemberDecl.explicitlyDeleted Lazy_int_members),
   copyAssignAvail MemberDecl.explicitlyDeleted Lazy_int_members,
   moveAssignAvail MemberDecl.defaulted Lazy_int_members
     (copyAssignAvail MemberDecl.explicitlyDeleted Lazy_int_members)⟩

/-- Members of `Lazy<void>`: `OnceCall once_; InitFn init_fn_;`. -/
def LazyVoid_members : List TypeTraits := [OnceCall_traits, std_function_traits]

/-- Special-member availability of `Lazy<void>` as declared in `lazy.h`
(lines 134–140): all four copy/move operations explicitly `= delete`. -/
def LazyVoid_traits : TypeTraits :=
  ⟨copyCtorAvail MemberDecl.explicitlyDeleted LazyVoid_members,
   moveCtorAvail MemberDecl.explicitlyDeleted LazyVoid_members
     (copyCtorAvail MemberDecl.explicitlyDeleted LazyVoid_members),
   copyAssignAvail MemberDecl.explicitlyDeleted LazyVoid_members,
   moveAssignAvail MemberDecl.explicitlyDeleted LazyVoid_members
     (copyAssignAvail MemberDecl.explicitlyDeleted LazyVoid_members)⟩

/-! ## Concrete initializers used in the spec's scenarios -/

/-- Scenario C action: increment the external counter, succeed. -/
def incAction : Nat → Except Unit Nat := fun n => Except.ok (n + 1)

/-- Scenario A initializer: `() => 42`. -/
def ret42 : Unit → Except Unit (Unit × Nat) := fun _ => Except.ok ((), 42)

/-- Scenario A second initializer: `() => 123`. -/
def ret123 : Unit → Except Unit (Unit × Nat) := fun _ => Except.ok ((), 123)

/-- Scenario D second initializer: `() => 7`. -/
def ret7 : Unit → Except Unit (Unit × Nat) := fun _ => Except.ok ((), 7)

/-- Reset-scenario initializer: `() => 77`. -/
def ret77 : Unit → Except Unit (Unit × Nat) := fun _ => Except.ok ((), 77)

/-- Reset-scenario second initializer: `() => 88`. -/
def ret88 : Unit → Except Unit (Unit × Nat) := fun _ => Except.ok ((), 88)

/-- Scenario D first initializer: always throws. -/
def failInit : Unit → Except Unit (Unit × Nat) := fun _ => Except.error ()

/-! ## Helper lemmas -/

/-- The fast path: `call` on an initialized action returns at once, leaving
the action, the external state and the exception channel untouched. -/
theorem OnceCall.call_of_initialized {σ ε : Type} (c : OnceCall)
    (fn : σ → Except ε σ) (s : σ) (h : c.state_ = State.Initialized) :
    c.call fn s = (c, s, none) := by
  unfold OnceCall.call
  rw [if_pos h]

/-- The slow path of `call` with a succeeding initializer: the flag becomes
`Initialized` and the initializer's state change is kept. -/
theorem OnceCall.call_ok {σ ε : Type} (c : OnceCall) (fn : σ → Except ε σ)
    (s s1 : σ) (h : c.state_ ≠ State.Initialized) (hfn : fn s = Except.ok s1) :
    c.call fn s = (⟨State.Initialized⟩, s1, none) := by
  unfold OnceCall.call
  rw [if_neg h, if_neg h, hfn]

/-- The slow path of `call` with a throwing initializer: the flag rolls back
to `Uninitialized` and the exception propagates. -/
theorem OnceCall.call_error {σ ε : Type} (c : OnceCall) (fn : σ → Except ε σ)
    (s : σ) (e : ε) (h : c.state_ ≠ State.Initialized)
    (hfn : fn s = Except.error e) :
    c.call fn s = (⟨State.Uninitialized⟩, s, some e) := by
  unfold OnceCall.call
  rw [if_neg h, if_neg h, hfn]

/-- A whole sequence of `call`s on an initialized action is a no-op. -/
theorem OnceCall.runCalls_of_initialized {σ ε : Type}
    (fns : List (σ → Except ε σ)) (c : OnceCall) (s : σ)
    (h : c.state_ = State.Initialized) :
    OnceCall.runCalls c fns s = (c, s) := by
  induction fns generalizing s with
  | nil => rfl
  | cons fn rest ih =>
    unfold OnceCall.runCalls
    rw [OnceCall.call_of_initialized c fn s h]
    exact ih s

/-- Instrumentation unfolding: a successful base initializer bumps the
success counter. -/
theorem countSucc_ok {σ ε : Type} (fn : σ → Except ε σ) (s s1 : σ) (n : Nat)
    (hfn : fn s = Except.ok s1) :
    countSucc fn (s, n) = Except.ok (s1, n + 1) := by
  unfold countSucc
  rw [hfn]

/-- Instrumentation unfolding: a throwing base initializer leaves the success
counter alone. -/
theorem countSucc_error {σ ε : Type} (fn : σ → Except ε σ) (s : σ) (e : ε)
    (n : Nat) (hfn : fn s = Except.error e) :
    countSucc fn (s, n) = Except.error e := by
  unfold countSucc
  rw [hfn]

/-- Counting successful initializer completions along any sequence of
instrumented `call`s: starting from counter `n`, the final counter is at most
`n + 1`, and it stays exactly `n` when the action is already initialized. -/
theorem OnceCall.runCalls_countSucc_le {σ ε : Type}
    (fns : List (σ → Except ε σ)) :
    ∀ (c : OnceCall) (s : σ) (n : Nat),
      (OnceCall.runCalls c (fns.map countSucc) (s, n)).2.2 ≤ n + 1 := by
  induction fns with
  | nil =>
    intro c s n
    simp [OnceCall.runCalls]
  | cons fn rest ih =>
    intro c s n
    by_cases h : c.state_ = State.Initialized
    · rw [OnceCall.runCalls_of_initialized _ c (s, n) h]
      exact Nat.le_succ n
    · rw [List.map_cons]
      unfold OnceCall.runCalls
      cases hfn : fn s with
      | ok s1 =>
        rw [OnceCall.call_ok c _ _ _ h (countSucc_ok fn s s1 n hfn)]
        show (OnceCall.runCalls ⟨State.Initialized⟩ (rest.map countSucc)
          (s1, n + 1)).2.2 ≤ n + 1
        rw [OnceCall.runCalls_of_initialized (rest.map countSucc)
          ⟨State.Initialized⟩ (s1, n + 1) rfl]
      | error e =>
        rw [OnceCall.call_error c _ _ _ h (countSucc_error fn s e n hfn)]
        exact ih ⟨State.Uninitialized⟩ s n

/-- The fast path of `get_or_init` on an initialized cell: the cell and the
external state are untouched and the stored reference is returned. -/
theorem OnceCell.get_or_init_of_initialized {α σ ε : Type} (c : OnceCell α)
    (fn : σ → Except ε (σ × α)) (s : σ) (h : c.state_ = State.Initialized) :
    c.get_or_init fn s = (c, s, Except.ok c.value_) := by
  unfold OnceCell.get_or_init
  rw [if_pos h]

/-- The slow path of `get_or_init` with a succeeding initializer: the value is
emplaced and the flag becomes `Initialized`. -/
theorem OnceCell.get_or_init_ok {α σ ε : Type} (c : OnceCell α)
    (fn : σ → Except ε (σ × α)) (s s1 : σ) (v : α)
    (h : c.state_ ≠ State.Initialized) (hfn : fn s = Except.ok (s1, v)) :
    c.get_or_init fn s = (⟨some v, State.Initialized⟩, s1, Except.ok (some v)) := by
  unfold OnceCell.get_or_init
  rw [if_neg h, if_neg h, hfn]

/-- The slow path of `get_or_init` with a throwing initializer: the slot is
left as it was, the flag rolls back to `Uninitialized`, the exception
propagates. -/
theorem OnceCell.get_or_init_error {α σ ε : Type} (c : OnceCell α)
    (fn : σ → Except ε (σ × α)) (s : σ) (e : ε)
    (h : c.state_ ≠ State.Initialized) (hfn : fn s = Except.error e) :
    c.get_or_init fn s = (⟨c.value_, State.Uninitialized⟩, s, Except.error e) := by
  unfold OnceCell.get_or_init
  rw [if_neg h, if_neg h, hfn]

/-- Unfolding: the `get_or_init` event keeps the cell and external state
produced by `get_or_init` itself. -/
theorem OnceCell.step_getOrInit {α σ ε : Type} (c : OnceCell α)
    (fn : σ → Except ε (σ × α)) (s : σ) :
    c.step (CellOp.getOrInit fn) s =
      ((c.get_or_init fn s).1, (c.get_or_init fn s).2.1) :=
  rfl

/-- Every single public operation preserves the slot/flag invariant. -/
theorem OnceCell.step_slotInv {α σ ε : Type} (c : OnceCell α)
    (op : CellOp σ ε α) (s : σ) (h : slotInv c) : slotInv (c.step op s).1 := by
  cases op with
  | getOrInit fn =>
    rw [OnceCell.step_getOrInit]
    by_cases hs : c.state_ = State.Initialized
    · rw [OnceCell.get_or_init_of_initialized c fn s hs]
      exact h
    · cases hfn : fn s with
      | ok p =>
        rw [OnceCell.get_or_init_ok c fn s p.1 p.2 hs (by rw [hfn])]
        simp [slotInv]
      | error e =>
        rw [OnceCell.get_or_init_error c fn s e hs hfn]
        have hempty : c.value_.isSome = false := by
          cases hv : c.value_.isSome with
          | false => rfl
          | true => exact absurd (h.mp hv) hs
        simp [slotInv, hempty]
  | getOp => exact h
  | tryGetOp => exact h
  | isInitOp => exact h
  | resetOp => simp [OnceCell.step, OnceCell.reset, slotInv]

/-- Any sequence of public operations preserves the slot/flag invariant. -/
theorem OnceCell.runOps_slotInv {α σ ε : Type} (ops : List (CellOp σ ε α)) :
    ∀ (c : OnceCell α) (s : σ), slotInv c →
      slotInv (OnceCell.runOps c ops s).1 := by
  induction ops with
  | nil => intro c s h; exact h
  | cons op rest ih =>
    intro c s h
    unfold OnceCell.runOps
    have hstep := OnceCell.step_slotInv c op s h
    cases hc : c.step op s with
    | mk c1 s1 =>
      rw [hc] at hstep
      exact ih c1 s1 hstep

/-! ## Claim theorems -/

/-- Claim C1: for the run-once action (`OnceCall::call`, and `Lazy<void>::get`
which delegates to it), across every sequence of calls on one primitive the
supplied initializer is invoked successfully at most once; once some call has
completed successfully, every later call returns without invoking the
initializer it was given; an action initializer that increments a counter,
bound via the action adapter, leaves the counter at 1 after two `get()`s. -/
theorem C1_action_initializer_at_most_once :
    (∀ (σ ε : Type) (fns : List (σ → Except ε σ)) (s : σ),
      (OnceCall.new.runCalls (fns.map countSucc) (s, 0)).2.2 ≤ 1) ∧
    (∀ (σ ε : Type) (c : OnceCall) (fn : σ → Except ε σ) (s : σ),
      c.state_ = State.Initialized → c.call fn s = (c, s, none)) ∧
    (((LazyVoid.new incAction).get 0).1.get
        (((LazyVoid.new incAction).get 0).2.1)).2.1 = 1 := by
  refine ⟨?_, ?_, rfl⟩
  · intro σ ε fns s
    exact OnceCall.runCalls_countSucc_le fns OnceCall.new s 0
  · intro σ ε c fn s h
    exact OnceCall.call_of_initialized c fn s h

/-- Witness for C1 at concrete inputs: a call on an already-initialized action
is a no-op, and two instrumented calls on a fresh action leave the success
counter at most 1. -/
theorem C1_action_initializer_at_most_once_witness :
    (⟨State.Initialized⟩ : OnceCall).call incAction 5 =
      (⟨State.Initialized⟩, 5, none) ∧
    (OnceCall.new.runCalls ([incAction, incAction].map countSucc) (0, 0)).2.2 ≤ 1 :=
  ⟨C1_action_initializer_at_most_once.2.1 Nat Unit ⟨State.Initialized⟩
      incAction 5 rfl,
   C1_action_initializer_at_most_once.1 Nat Unit [incAction, incAction] 0⟩

/-- Claim C2: once a `get_or_init` has succeeded, every subsequent
`get_or_init` — with any initializer — returns the originally computed value
unchanged without invoking the new initializer, and `is_initialized()` is
true; concretely, initializing with `() => 42` and then calling with
`() => 123` yields 42 both times. -/
theorem C2_get_or_init_idempotent_after_success :
    (∀ (α σ ε : Type) (c : OnceCell α) (fn : σ → Except ε (σ × α)) (s : σ)
      (v : α), c.state_ = State.Initialized → c.value_ = some v →
      c.get_or_init fn s = (c, s, Except.ok (some v)) ∧
      c.is_initialized = true) ∧
    ((OnceCell.new Nat).get_or_init ret42 () =
      (⟨some 42, State.Initialized⟩, (), Except.ok (some 42)) ∧
     ((OnceCell.new Nat).get_or_init ret42 ()).1.get_or_init ret123 () =
      (⟨some 42, State.Initialized⟩, (), Except.ok (some 42)) ∧
     ((OnceCell.new Nat).get_or_init ret42 ()).1.is_initialized = true) := by
  refine ⟨?_, rfl, rfl, rfl⟩
  intro α σ ε c fn s v h hv
  refine ⟨?_, ?_⟩
  · rw [OnceCell.get_or_init_of_initialized c fn s h, hv]
  · simp [OnceCell.is_initialized, h]

/-- Witness for C2 at a concrete initialized cell holding 42, accessed with
the `() => 123` initializer. -/
theorem C2_get_or_init_idempotent_after_success_witness :
    (⟨some 42, State.Initialized⟩ : OnceCell Nat).get_or_init ret123 () =
      (⟨some 42, State.Initialized⟩, (), Except.ok (some 42)) ∧
    (⟨some 42, State.Initialized⟩ : OnceCell Nat).is_initialized = true :=
  C2_get_or_init_idempotent_after_success.1 Nat Unit Unit
    ⟨some 42, State.Initialized⟩ ret123 () 42 rfl rfl

/-- Claim C3: from the `Uninitialized` state a throwing initializer makes
`get_or_init` / `call` propagate the failure, leaving the state
`Uninitialized` with an empty slot and `is_initialized()` false; a subsequent
call with a succeeding initializer completes normally, returns its value, and
leaves `is_initialized()` true (Scenario D: throw first, then `return 7`). -/
theorem C3_failure_rolls_back_and_retry_succeeds :
    (∀ (α σ ε : Type) (c : OnceCell α) (fn : σ → Except ε (σ × α)) (s : σ)
      (e : ε), c.state_ = State.Uninitialized → c.value_ = none →
      fn s = Except.error e →
      c.get_or_init fn s = (⟨none, State.Uninitialized⟩, s, Except.error e) ∧
      (c.get_or_init fn s).1.is_initialized = false) ∧
    (∀ (α σ ε : Type) (c : OnceCell α) (fn : σ → Except ε (σ × α)) (s s1 : σ)
      (v : α), c.state_ = State.Uninitialized → fn s = Except.ok (s1, v) →
      c.get_or_init fn s =
        (⟨some v, State.Initialized⟩, s1, Except.ok (some v)) ∧
      (c.get_or_init fn s).1.is_initialized = true) ∧
    (∀ (σ ε : Type) (c : OnceCall) (fn : σ → Except ε σ) (s : σ) (e : ε),
      c.state_ = State.Uninitialized → fn s = Except.error e →
      c.call fn s = (⟨State.Uninitialized⟩, s, some e) ∧
      (c.call fn s).1.is_initialized = false) ∧
    (∀ (σ ε : Type) (c : OnceCall) (fn : σ → Except ε σ) (s s1 : σ),
      c.state_ = State.Uninitialized → fn s = Except.ok s1 →
      c.call fn s = (⟨State.Initialized⟩, s1, none) ∧
      (c.call fn s).1.is_initialized = true) ∧
    ((OnceCell.new Nat).get_or_init failInit () =
      (⟨none, State.Uninitialized⟩, (), Except.error ()) ∧
     ((OnceCell.new Nat).get_or_init failInit ()).1.get_or_init ret7 () =
      (⟨some 7, State.Initialized⟩, (), Except.ok (some 7)) ∧
     (((OnceCell.new Nat).get_or_init failInit ()).1.get_or_init ret7 ()).1.is_initialized
       = true) := by
  refine ⟨?_, ?_, ?_, ?_, rfl, rfl, rfl⟩
  · intro α σ ε c fn s e h hv hfn
    have h' : c.state_ ≠ State.Initialized := by simp [h]
    have heq := OnceCell.get_or_init_error c fn s e h' hfn
    rw [hv] at heq
    exact ⟨heq, by rw [heq]; rfl⟩
  · intro α σ ε c fn s s1 v h hfn
    have h' : c.state_ ≠ State.Initialized := by simp [h]
    have heq := OnceCell.get_or_init_ok c fn s s1 v h' hfn
    exact ⟨heq, by rw [heq]; rfl⟩
  · intro σ ε c fn s e h hfn
    have h' : c.state_ ≠ State.Initialized := by simp [h]
    have heq := OnceCall.call_error c fn s e h' hfn
    exact ⟨heq, by rw [heq]; rfl⟩
  · intro σ ε c fn s s1 h hfn
    have h' : c.state_ ≠ State.Initialized := by simp [h]
    have heq := OnceCall.call_ok c fn s s1 h' hfn
    exact ⟨heq, by rw [heq]; rfl⟩

/-- Witness for C3: the fresh cell with the always-throwing initializer. -/
theorem C3_failure_rolls_back_and_retry_succeeds_witness :
    (OnceCell.new Nat).get_or_init failInit () =
      (⟨none, State.Uninitialized⟩, (), Except.error ()) ∧
    ((OnceCell.new Nat).get_or_init failInit ()).1.is_initialized = false :=
  C3_failure_rolls_back_and_retry_succeeds.1 Nat Unit Unit (OnceCell.new Nat)
    failInit () () rfl rfl rfl

/-- Claim C4: from a freshly constructed cell, after every sequence of
`get_or_init` / `get` / `try_get` / `is_initialized` / `reset` operations the
stored-value slot is non-empty if and only if the state flag is `Initialized`;
in particular the failure path of `get_or_init` leaves the slot empty together
with the `Uninitialized` state. -/
theorem C4_slot_nonempty_iff_initialized :
    (∀ (α σ ε : Type) (ops : List (CellOp σ ε α)) (s : σ),
      slotInv ((OnceCell.new α).runOps ops s).1) ∧
    (∀ (α σ ε : Type) (c : OnceCell α) (fn : σ → Except ε (σ × α)) (s : σ)
      (e : ε), slotInv c → c.state_ ≠ State.Initialized →
      fn s = Except.error e →
      (c.get_or_init fn s).1.value_ = none ∧
      (c.get_or_init fn s).1.state_ = State.Uninitialized) := by
  constructor
  · intro α σ ε ops s
    exact OnceCell.runOps_slotInv ops (OnceCell.new α) s
      (by simp [slotInv, OnceCell.new])
  · intro α σ ε c fn s e hinv hs hfn
    have hempty : c.value_ = none := by
      cases hv : c.value_ with
      | none => rfl
      | some v => exact absurd (hinv.mp (by rw [hv]; rfl)) hs
    have heq := OnceCell.get_or_init_error c fn s e hs hfn
    rw [heq, hempty]
    exact ⟨rfl, rfl⟩

/-- Witness for C4: a concrete history (initialize with 42, then reset), and
the failure path of a fresh cell with the throwing initializer. -/
theorem C4_slot_nonempty_iff_initialized_witness :
    slotInv (((OnceCell.new Nat).runOps
      [CellOp.getOrInit ret42, CellOp.resetOp] ()).1) ∧
    (((OnceCell.new Nat).get_or_init failInit ()).1.value_ = none ∧
     ((OnceCell.new Nat).get_or_init failInit ()).1.state_ =
       State.Uninitialized) :=
  ⟨C4_slot_nonempty_iff_initialized.1 Nat Unit Unit
      [CellOp.getOrInit ret42, CellOp.resetOp] (),
   C4_slot_nonempty_iff_initialized.2 Nat Unit Unit (OnceCell.new Nat)
      failInit () () (by decide) (by decide) rfl⟩

/-- Claim C5 (evaluation of the code at the failing input): under the
embedded C++ special-member rules, `Lazy<int>` as declared in `lazy.h` is not
move-constructible and not move-assignable — its defaulted move operations
are defined as deleted because the member `OnceCell<int>` (holding
`std::atomic` and `std::mutex`, with a user-declared destructor) is neither
movable nor copyable, and a deleted defaulted move is ignored by overload
resolution, leaving only the deleted copy operations.  `Lazy<void>` deletes
all four operations.  So both adapters reject copying *and moving* at the
type level; the claim's "move-constructible and move-assignable" part fails. -/
theorem C5_lazy_adapter_moves_deleted :
    Lazy_int_traits = ⟨false, false, false, false⟩ ∧
    LazyVoid_traits = ⟨false, false, false, false⟩ ∧
    OnceCell_int_traits = ⟨false, false, false, false⟩ ∧
    OnceCall_traits = ⟨false, false, false, false⟩ := by
  decide

/-- Claim C6: `OnceCell::get` and `OnceCell::try_get` never invoke any
initializer and never change the cell's state (as operations they leave the
cell and the external state untouched); each returns a pointer to the stored
value when the state is `Initialized` and a null result otherwise; `try_get`
has semantics identical to `get`, and `Lazy<T>::try_get` delegates to the
cell. -/
theorem C6_get_try_get_pure_reads :
    (∀ (α : Type) (c : OnceCell α) (v : α),
      c.is_initialized = true → c.value_ = some v →
      c.get = some v ∧ c.try_get = some v) ∧
    (∀ (α : Type) (c : OnceCell α),
      c.is_initialized = false → c.get = none ∧ c.try_get = none) ∧
    (∀ (α : Type) (c : OnceCell α), c.try_get = c.get) ∧
    (∀ (α σ ε : Type) (c : OnceCell α) (s : σ),
      c.step (CellOp.getOp : CellOp σ ε α) s = (c, s) ∧
      c.step (CellOp.tryGetOp : CellOp σ ε α) s = (c, s)) ∧
    (∀ (σ ε α : Type) (l : Lazy σ ε α), l.try_get = l.cell_.get) := by
  refine ⟨?_, ?_, ?_, ?_, ?_⟩
  · intro α c v h hv
    have hs : c.state_ = State.Initialized := by
      simpa [OnceCell.is_initialized] using h
    constructor
    · rw [OnceCell.get, if_pos hs, hv]
    · rw [OnceCell.try_get, if_pos hs, hv]
  · intro α c h
    have hs : ¬c.state_ = State.Initialized := by
      simpa [OnceCell.is_initialized] using h
    exact ⟨by rw [OnceCell.get, if_neg hs], by rw [OnceCell.try_get, if_neg hs]⟩
  · intro α c
    rfl
  · intro α σ ε c s
    exact ⟨rfl, rfl⟩
  · intro σ ε α l
    rfl

/-- Witness for C6 at a concrete initialized cell holding 5 and a concrete
empty cell. -/
theorem C6_get_try_get_pure_reads_witness :
    ((⟨some 5, State.Initialized⟩ : OnceCell Nat).get = some 5 ∧
     (⟨some 5, State.Initialized⟩ : OnceCell Nat).try_get = some 5) ∧
    ((OnceCell.new Nat).get = none ∧ (OnceCell.new Nat).try_get = none) :=
  ⟨C6_get_try_get_pure_reads.1 Nat ⟨some 5, State.Initialized⟩ 5 rfl rfl,
   C6_get_try_get_pure_reads.2.1 Nat (OnceCell.new Nat) rfl⟩

/-- Claim C7: after `reset()` the primitive reports `is_initialized() =
false` with an empty slot (where present), and the next
`get_or_init`/`call`/`get` invokes its initializer again and yields that new
invocation's result (77, reset, then 88 yields 88). -/
theorem C7_reset_enables_reinitialization :
    (∀ (α : Type) (c : OnceCell α),
      c.reset.is_initialized = false ∧ c.reset.value_ = none) ∧
    (∀ (c : OnceCall), c.reset.is_initialized = false) ∧
    (∀ (α σ ε : Type) (c : OnceCell α) (fn : σ → Except ε (σ × α)) (s s1 : σ)
      (v : α), fn s = Except.ok (s1, v) →
      c.reset.get_or_init fn s =
        (⟨some v, State.Initialized⟩, s1, Except.ok (some v))) ∧
    (∀ (σ ε : Type) (c : OnceCall) (fn : σ → Except ε σ) (s s1 : σ),
      fn s = Except.ok s1 →
      c.reset.call fn s = (⟨State.Initialized⟩, s1, none)) ∧
    (∀ (σ ε α : Type) (l : Lazy σ ε α) (s s1 : σ) (v : α),
      l.init_fn_ s = Except.ok (s1, v) →
      (l.reset.get s).1.cell_ = ⟨some v, State.Initialized⟩ ∧
      (l.reset.get s).2 = (s1, Except.ok (some v))) ∧
    (((OnceCell.new Nat).get_or_init ret77 ()).1.reset.get_or_init ret88 () =
      (⟨some 88, State.Initialized⟩, (), Except.ok (some 88)) ∧
     ((OnceCell.new Nat).get_or_init ret77 ()).1.reset.is_initialized =
       false) := by
  refine ⟨?_, ?_, ?_, ?_, ?_, rfl, rfl⟩
  · intro α c
    exact ⟨rfl, rfl⟩
  · intro c
    rfl
  · intro α σ ε c fn s s1 v hfn
    exact OnceCell.get_or_init_ok c.reset fn s s1 v
      (fun hx => State.noConfusion hx) hfn
  · intro σ ε c fn s s1 hfn
    exact OnceCall.call_ok c.reset fn s s1 (fun hx => State.noConfusion hx) hfn
  · intro σ ε α l s s1 v hfn
    have heq := OnceCell.get_or_init_ok l.cell_.reset l.init_fn_ s s1 v
      (fun hx => State.noConfusion hx) hfn
    constructor
    · simp only [Lazy.get, Lazy.reset, heq]
    · simp only [Lazy.get, Lazy.reset, heq]

/-- Witness for C7: reset a concrete initialized cell and action, then
reinitialize with `() => 88`. -/
theorem C7_reset_enables_reinitialization_witness :
    (⟨some 77, State.Initialized⟩ : OnceCell Nat).reset.get_or_init ret88 () =
      (⟨some 88, State.Initialized⟩, (), Except.ok (some 88)) ∧
    (⟨State.Initialized⟩ : OnceCall).reset.call incAction 0 =
      (⟨State.Initialized⟩, 1, none) :=
  ⟨C7_reset_enables_reinitialization.2.2.1 Nat Unit Unit
      ⟨some 77, State.Initialized⟩ ret88 () () 88 rfl,
   C7_reset_enables_reinitialization.2.2.2.1 Nat Unit
      ⟨State.Initialized⟩ incAction 0 1 rfl⟩

/-- Claim C8: constructing `Lazy<T>` or `Lazy<void>` does not invoke the
bound initializer — immediately after construction `is_initialized()` is
false and the inner primitive is freshly constructed — and the initializer is
first invoked only on the first access (`get` / `operator*` / `operator->`),
whose outcome is that first invocation's result. -/
theorem C8_adapters_construct_lazily :
    (∀ (σ ε α : Type) (fn : σ → Except ε (σ × α)),
      (Lazy.new fn).is_initialized = false ∧
      (Lazy.new fn).cell_ = OnceCell.new α) ∧
    (∀ (σ ε : Type) (fn : σ → Except ε σ),
      (LazyVoid.new fn).is_initialized = false ∧
      (LazyVoid.new fn).once_ = OnceCall.new) ∧
    (∀ (σ ε α : Type) (fn : σ → Except ε (σ × α)) (s s1 : σ) (v : α),
      fn s = Except.ok (s1, v) →
      ((Lazy.new fn).get s).1.cell_ = ⟨some v, State.Initialized⟩ ∧
      ((Lazy.new fn).get s).2 = (s1, Except.ok (some v))) ∧
    (∀ (σ ε α : Type) (l : Lazy σ ε α) (s : σ),
      l.derefStar s = l.get s ∧ l.derefArrow s = l.get s) ∧
    (∀ (σ ε : Type) (fn : σ → Except ε σ) (s s1 : σ),
      fn s = Except.ok s1 →
      ((LazyVoid.new fn).get s).1.once_ = ⟨State.Initialized⟩ ∧
      ((LazyVoid.new fn).get s).2 = (s1, none)) := by
  refine ⟨?_, ?_, ?_, ?_, ?_⟩
  · intro σ ε α fn
    exact ⟨rfl, rfl⟩
  · intro σ ε fn
    exact ⟨rfl, rfl⟩
  · intro σ ε α fn s s1 v hfn
    have heq := OnceCell.get_or_init_ok (OnceCell.new α) fn s s1 v
      (fun hx => State.noConfusion hx) hfn
    constructor
    · simp only [Lazy.get, Lazy.new, heq]
    · simp only [Lazy.get, Lazy.new, heq]
  · intro σ ε α l s
    exact ⟨rfl, rfl⟩
  · intro σ ε fn s s1 hfn
    have heq := OnceCall.call_ok OnceCall.new fn s s1
      (fun hx => State.noConfusion hx) hfn
    constructor
    · simp only [LazyVoid.get, LazyVoid.new, heq]
    · simp only [LazyVoid.get, LazyVoid.new, heq]

/-- Witness for C8: the adapter bound to `() => 42`, never accessed and then
accessed once. -/
theorem C8_adapters_construct_lazily_witness :
    (Lazy.new ret42).is_initialized = false ∧
    ((Lazy.new ret42).get ()).1.cell_ = ⟨some 42, State.Initialized⟩ ∧
    ((Lazy.new ret42).get ()).2 = ((), Except.ok (some 42)) :=
  ⟨(C8_adapters_construct_lazily.1 Unit Unit Nat ret42).1,
   (C8_adapters_construct_lazily.2.2.1 Unit Unit Nat ret42 () () 42 rfl).1,
   (C8_adapters_construct_lazily.2.2.1 Unit Unit Nat ret42 () () 42 rfl).2⟩

/-- Claim C9: `OnceCell`'s `operator*` / `operator->` (and const overloads)
dereference the slot directly with no state check or initialization: they
depend only on the slot (not on the flag); under the precondition that the
cell satisfies the slot invariant and is `Initialized` they return the stored
value (the empty-slot branch is unreachable), and on an empty slot the access
is the dereference of an empty optional (modelled `none`). -/
theorem C9_deref_operators_unchecked :
    (∀ (α : Type) (c : OnceCell α) (v : α), c.value_ = some v →
      c.derefStar = some v ∧ c.derefStarConst = some v ∧
      c.derefArrow = some v ∧ c.derefArrowConst = some v) ∧
    (∀ (α : Type) (c : OnceCell α), c.value_ = none →
      c.derefStar = none ∧ c.derefStarConst = none ∧
      c.derefArrow = none ∧ c.derefArrowConst = none) ∧
    (∀ (α : Type) (c c1 : OnceCell α), c.value_ = c1.value_ →
      c.derefStar = c1.derefStar ∧ c.derefStarConst = c1.derefStarConst ∧
      c.derefArrow = c1.derefArrow ∧ c.derefArrowConst = c1.derefArrowConst) ∧
    (∀ (α : Type) (c : OnceCell α), slotInv c →
      c.state_ = State.Initialized → ∃ v, c.derefStar = some v) := by
  refine ⟨?_, ?_, ?_, ?_⟩
  · intro α c v hv
    exact ⟨hv, hv, hv, hv⟩
  · intro α c hv
    exact ⟨hv, hv, hv, hv⟩
  · intro α c c1 hv
    exact ⟨hv, hv, hv, hv⟩
  · intro α c hinv hs
    have hsome : c.value_.isSome = true := hinv.mpr hs
    exact ⟨c.value_.get hsome, (Option.some_get hsome).symm⟩

/-- Witness for C9: the dereference operators on a concrete cell holding 9,
on a concrete empty cell, and under the established precondition. -/
theorem C9_deref_operators_unchecked_witness :
    ((⟨some 9, State.Initialized⟩ : OnceCell Nat).derefStar = some 9 ∧
     (⟨some 9, State.Initialized⟩ : OnceCell Nat).derefStarConst = some 9 ∧
     (⟨some 9, State.Initialized⟩ : OnceCell Nat).derefArrow = some 9 ∧
     (⟨some 9, State.Initialized⟩ : OnceCell Nat).derefArrowConst = some 9) ∧
    (OnceCell.new Nat).derefStar = none ∧
    (∃ v, (⟨some 9, State.Initialized⟩ : OnceCell Nat).derefStar = some v) :=
  ⟨C9_deref_operators_unchecked.1 Nat ⟨some 9, State.Initialized⟩ 9 rfl,
   (C9_deref_operators_unchecked.2.1 Nat (OnceCell.new Nat) rfl).1,
   C9_deref_operators_unchecked.2.2.2 Nat ⟨some 9, State.Initialized⟩
     (by decide) rfl⟩

/-- Claim C10: the explicit bool conversion of `Lazy<T>` and `Lazy<void>` is
extensionally equal to `is_initialized()` — true exactly when the inner flag
is `Initialized` — and as a pure read it depends only on that flag (so it
neither mutates the adapter nor invokes the bound initializer). -/
theorem C10_bool_conversion_is_initialized :
    (∀ (σ ε α : Type) (l : Lazy σ ε α),
      l.toBool = l.is_initialized ∧
      (l.toBool = true ↔ l.cell_.state_ = State.Initialized)) ∧
    (∀ (σ ε : Type) (l : LazyVoid σ ε),
      l.toBool = l.is_initialized ∧
      (l.toBool = true ↔ l.once_.state_ = State.Initialized)) ∧
    (∀ (σ ε α : Type) (l l1 : Lazy σ ε α),
      l.cell_.state_ = l1.cell_.state_ → l.toBool = l1.toBool) ∧
    (∀ (σ ε : Type) (l l1 : LazyVoid σ ε),
      l.once_.state_ = l1.once_.state_ → l.toBool = l1.toBool) := by
  refine ⟨?_, ?_, ?_, ?_⟩
  · intro σ ε α l
    exact ⟨rfl, by
      simp [Lazy.toBool, Lazy.is_initialized, OnceCell.is_initialized]⟩
  · intro σ ε l
    exact ⟨rfl, by
      simp [LazyVoid.toBool, LazyVoid.is_initialized, OnceCall.is_initialized]⟩
  · intro σ ε α l l1 h
    simp [Lazy.toBool, Lazy.is_initialized, OnceCell.is_initialized, h]
  · intro σ ε l l1 h
    simp [LazyVoid.toBool, LazyVoid.is_initialized, OnceCall.is_initialized, h]

/-- Witness for C10: two freshly constructed adapters with different bound
initializers have equal bool conversions, and the conversion of a fresh
adapter agrees with `is_initialized`. -/
theorem C10_bool_conversion_is_initialized_witness :
    (Lazy.new ret42).toBool = (Lazy.new ret123).toBool ∧
    (Lazy.new ret42).toBool = (Lazy.new ret42).is_initialized :=
  ⟨C10_bool_conversion_is_initialized.2.2.1 Unit Unit Nat
      (Lazy.new ret42) (Lazy.new ret123) rfl,
   (C10_bool_conversion_is_initialized.1 Unit Unit Nat (Lazy.new ret42)).1⟩

end CxxLazy
